import Mathlib

/-!
# Verification of the stftpd TFTP server core

Shallow embedding of `src/src/stftpd.py` (module `stftpd`): the per-client
session state machine `ClientConnection.process`, the path sandbox
`ClientConnection.get_local_filename`, the dispatcher behaviour of
`Server.run` for a fresh peer key, and the retransmission watchdog
`Watchdog.run`.

Bytes are modelled as `List Nat`; a UDP datagram is a `List Nat`.
`struct.unpack("!H", b)` on a 2-byte slice becomes `unpackU16`, which fails
(models the raised `struct.error`) when the slice is shorter than 2 bytes,
exactly as Python's `struct.unpack` does on a short slice.
-/

namespace Stftpd

/-- Big-endian 16-bit decode of a slice, as `struct.unpack("!H", b)[0]`:
raises (here: `none`) unless the slice has exactly 2 bytes. -/
def unpackU16 (b : List Nat) : Option Nat :=
  match b with
  | [hi, lo] => some (hi * 256 + lo)
  | _ => none

/-- Big-endian 16-bit encode, as `struct.pack("!H", n)` for `n < 65536`. -/
def packU16 (n : Nat) : List Nat :=
  [n / 256 % 256, n % 256]

/-- The block-counter increment of `process` (lines 206-208 and 252-255):
`+= 1` followed by `if == 65536: = 0`. -/
def wrapInc (b : Nat) : Nat :=
  if b + 1 = 65536 then 0 else b + 1

/-- The Python file object held in `self.fp`: a read handle over the bytes not
yet returned by `read`, or a write handle accumulating the written bytes.
`ok = false` models a handle whose read/write calls raise. -/
inductive FileHandle where
  | reading (remaining : List Nat) (ok : Bool)
  | writing (written : List Nat) (ok : Bool)
deriving DecidableEq

/-- `self.fp.read(512)`: at most 512 bytes from a healthy read handle,
otherwise the call raises (`none`; `fp` may also be `None` or write-mode,
both of which raise in Python). The handle is returned advanced. -/
def fpRead (fp : Option FileHandle) : Option (List Nat) × Option FileHandle :=
  match fp with
  | some (FileHandle.reading rem true) =>
      (some (rem.take 512), some (FileHandle.reading (rem.drop 512) true))
  | other => (none, other)

/-- `self.fp.write(d)`: append to a healthy write handle, otherwise the call
raises (`none`; covers `fp = None` (AttributeError) and read-mode handles). -/
def fpWrite (fp : Option FileHandle) (d : List Nat) : Option (Option FileHandle) :=
  match fp with
  | some (FileHandle.writing w true) => some (some (FileHandle.writing (w ++ d) true))
  | _ => none

/-- The bytes of the file a `clear()` closes, when the handle was a write
handle: the contents of the file on disk once the session is torn down. -/
def writtenOf : Option FileHandle → Option (List Nat)
  | some (FileHandle.writing w _) => some w
  | _ => none

/-- Mutable state of one `ClientConnection` (constructor lines 50-58). -/
structure Session where
  current_block_number : Nat
  current_data : Option (List Nat)
  current_data_length : Nat
  data_finished : Bool
  fp : Option FileHandle
deriving DecidableEq

/-- A fresh `ClientConnection` as built by `Server.run` for an unseen key. -/
def initSession : Session :=
  { current_block_number := 1
    current_data := none
    current_data_length := 0
    data_finished := false
    fp := none }

/-- Outcome of one `process` call on one datagram.
`session = none` means `clear()` ran and the key was deleted from
`server.remote_sockets`; `raised = true` means an exception escaped
`process` (nothing in `Server.run` catches it); `sent` lists the datagrams
passed to `sendto`, in order; `closedFile` is the on-disk content of a
write-mode file closed by `clear()` during this step. -/
structure StepResult where
  session : Option Session
  sent : List (List Nat)
  raised : Bool
  closedFile : Option (List Nat)
deriving DecidableEq

/-- Filesystem / path-resolution oracle for one RRQ or WRQ.
`resolveOk` models `get_local_filename` returning without raising (the
path pipeline itself is embedded separately as `get_local_filename` below),
`isfile` models `os.path.isfile(filename)`, `openOk` models `open(...)`
succeeding, and `contents` the bytes of the file opened for reading. -/
structure Env where
  resolveOk : Bool
  isfile : Bool
  openOk : Bool
  contents : List Nat
deriving DecidableEq

/-- Internal error codes, lines 21-26 of the source. -/
def ERROR_FILE_NOT_FOUND : Nat := 1

def ERROR_FILE_OPEN : Nat := 2

def ERROR_FILE_WRITE : Nat := 3

def ERROR_FILE_EXISTS : Nat := 4

def ERROR_UNKNOWN_ID : Nat := 5

def ERROR_UNKNOWN : Nat := 6

/-- `ClientConnection.error_messages`: internal code to (wire code, text). -/
def error_messages (code : Nat) : Nat × String :=
  if code = ERROR_FILE_NOT_FOUND then (1, "File not found")
  else if code = ERROR_FILE_OPEN then (2, "Can not open file")
  else if code = ERROR_FILE_WRITE then (2, "Can not write file")
  else if code = ERROR_FILE_EXISTS then (6, "File already exists")
  else if code = ERROR_UNKNOWN_ID then (5, "Unknown transfer ID")
  else (4, "Illegal TFTP operation")

def asciiBytes (s : String) : List Nat :=
  s.toList.map Char.toNat

/-- Wire ERROR packet, `struct.pack("!2H%dsB", 5, code, msg, 0)`. -/
def errorPacket (code : Nat) (msg : String) : List Nat :=
  packU16 5 ++ packU16 code ++ asciiBytes msg ++ [0]

/-- `ClientConnection.send_error` (lines 316-325): packs and sends the ERROR
packet directly on the socket — `self.current_data` is NOT updated — and,
since every call site uses the default `clear=True`, tears the session down. -/
def send_error (s : Session) (code : Nat) : StepResult :=
  { session := none
    sent := [errorPacket (error_messages code).1 (error_messages code).2]
    raised := false
    closedFile := writtenOf s.fp }

/-- `process`, opcode 1 (RRQ, lines 96-137).  Filename extraction and
`get_local_filename` are summarised by `env.resolveOk` (a raise propagates
out of `process`).  Note the open-failure branch: `send_error` runs (which
clears, leaving `self.fp = None`) but there is no `return`, so the
following unguarded `self.fp.read(512)` raises AttributeError. -/
def handleRRQ (env : Env) (s : Session) : StepResult :=
  if env.resolveOk then
    if env.isfile then
      if env.openOk then
        let d := env.contents.take 512
        let pkt := packU16 3 ++ packU16 1 ++ d
        { session := some
            { current_block_number := 1
              current_data := some pkt
              current_data_length := d.length
              data_finished := s.data_finished || decide (d.length < 512)
              fp := some (FileHandle.reading (env.contents.drop 512) true) }
          sent := [pkt]
          raised := false
          closedFile := none }
      else
        { send_error s ERROR_FILE_OPEN with raised := true }
    else send_error s ERROR_FILE_NOT_FOUND
  else { session := some s, sent := [], raised := true, closedFile := none }

/-- `process`, opcode 2 (WRQ, lines 139-177): reject an existing file, else
open for write, send `ACK(0)`, expect DATA block 1. -/
def handleWRQ (env : Env) (s : Session) : StepResult :=
  if env.resolveOk then
    if env.isfile then send_error s ERROR_FILE_EXISTS
    else if env.openOk then
      { session := some
          { current_block_number := 1
            current_data := some (packU16 4 ++ packU16 0)
            current_data_length := 0
            data_finished := s.data_finished
            fp := some (FileHandle.writing [] true) }
        sent := [packU16 4 ++ packU16 0]
        raised := false
        closedFile := none }
    else send_error s ERROR_FILE_OPEN
  else { session := some s, sent := [], raised := true, closedFile := none }

/-- `process`, opcode 3 (DATA, lines 179-220): wrong block is silently
ignored; a failing `self.fp.write` (including `fp = None`) is caught and
answered with ERROR(FileWrite); otherwise ACK the received block, advance
the counter with wrap, and close on a short payload. -/
def handleDATA (s : Session) (data : List Nat) : StepResult :=
  match unpackU16 ((data.drop 2).take 2) with
  | none => { session := some s, sent := [], raised := true, closedFile := none }
  | some block_number =>
    if block_number ≠ s.current_block_number then
      { session := some s, sent := [], raised := false, closedFile := none }
    else
      let payload := data.drop 4
      let len2 := s.current_data_length + payload.length
      match fpWrite s.fp payload with
      | none => send_error { s with current_data_length := len2 } ERROR_FILE_WRITE
      | some fp2 =>
        let pkt := packU16 4 ++ packU16 block_number
        if payload.length < 512 then
          { session := none, sent := [pkt], raised := false, closedFile := writtenOf fp2 }
        else
          { session := some
              { s with
                current_block_number := wrapInc s.current_block_number
                current_data := some pkt
                current_data_length := len2
                fp := fp2 }
            sent := [pkt]
            raised := false
            closedFile := none }

/-- `process`, opcode 4 (ACK, lines 222-261): with `data_finished` set any
ACK closes the session before the block number is even parsed; otherwise a
wrong block is ignored, and a matching block reads the next chunk (a
failing read is caught and treated as empty), advances the counter with
wrap, and sends the next DATA packet. -/
def handleACK (s : Session) (data : List Nat) : StepResult :=
  if s.data_finished then
    { session := none, sent := [], raised := false, closedFile := writtenOf s.fp }
  else
    match unpackU16 ((data.drop 2).take 2) with
    | none => { session := some s, sent := [], raised := true, closedFile := none }
    | some block_number =>
      if block_number ≠ s.current_block_number then
        { session := some s, sent := [], raised := false, closedFile := none }
      else
        let rd := fpRead s.fp
        let d := rd.1.getD []
        let nb := wrapInc s.current_block_number
        let pkt := packU16 3 ++ packU16 nb ++ d
        { session := some
            { current_block_number := nb
              current_data := some pkt
              current_data_length := s.current_data_length + d.length
              data_finished := decide (d.length < 512)
              fp := rd.2 }
          sent := [pkt]
          raised := false
          closedFile := none }

/-- `process`, opcode 5 (ERROR, lines 263-276): parse the error code (a
short datagram raises in `struct.unpack`), then close without reply. -/
def handleERROR (s : Session) (data : List Nat) : StepResult :=
  match unpackU16 ((data.drop 2).take 2) with
  | none => { session := some s, sent := [], raised := true, closedFile := none }
  | some _ => { session := none, sent := [], raised := false, closedFile := writtenOf s.fp }

/-- `ClientConnection.process` (lines 92-285): the opcode is unpacked from
`data[0:2]` (raising on a datagram shorter than 2 bytes), then dispatched
through the `elif` chain; any opcode outside 1..5 is answered with
`send_error(ERROR_UNKNOWN)`, i.e. wire code 4 "Illegal TFTP operation". -/
def process (env : Env) (s : Session) (data : List Nat) : StepResult :=
  match unpackU16 (data.take 2) with
  | none => { session := some s, sent := [], raised := true, closedFile := none }
  | some op =>
    if op = 1 then handleRRQ env s
    else if op = 2 then handleWRQ env s
    else if op = 3 then handleDATA s data
    else if op = 4 then handleACK s data
    else if op = 5 then handleERROR s data
    else send_error s ERROR_UNKNOWN

/-- `Server.run` (lines 398-406) on a datagram from a previously unseen peer
key: a fresh `ClientConnection` is created, inserted into
`remote_sockets`, and handed the datagram; the resulting `session` field is
the map entry for that key afterwards. -/
def serverHandleNew (env : Env) (data : List Nat) : StepResult :=
  process env initSession data

/-- Run `process` over a list of datagrams from the session's peer,
stopping when the session is cleared or an exception escapes. -/
def runSteps (env : Env) (s : Session) : List (List Nat) → StepResult
  | [] => { session := some s, sent := [], raised := false, closedFile := none }
  | d :: ds =>
    let r := process env s d
    match r.session, r.raised with
    | some s2, false =>
      let r2 := runSteps env s2 ds
      { session := r2.session
        sent := r.sent ++ r2.sent
        raised := r2.raised
        closedFile := r2.closedFile }
    | some _, true => r
    | none, _ => r

/-- Wire DATA packet with the given block number and payload. -/
def mkData (n : Nat) (payload : List Nat) : List Nat :=
  packU16 3 ++ packU16 n ++ payload

/-- The DATA datagrams a client sends for consecutive blocks starting at
block `b`, with the server-side wrap applied to the numbering. -/
def mkDataSeq (b : Nat) : List (List Nat) → List (List Nat)
  | [] => []
  | p :: ps => mkData b p :: mkDataSeq (wrapInc b) ps

/-- `ClientConnection.retry_send` (lines 304-310): the watchdog resends
`self.current_data` — the cached last-sent datagram — verbatim. -/
def retry_send (s : Session) : List (List Nat) :=
  s.current_data.toList

/-- One iteration of `Watchdog.run` (lines 419-443) with the counter at
`second_count`, when neither the stop nor the reset event is set: at 25 or
more idle seconds the session is cleared with nothing sent; at a positive
multiple of 5 the cached datagram is retransmitted; otherwise nothing
happens.  (With no reset, the counter takes the values 0, 1, 2, ... in
successive iterations.) -/
def watchdogTick (s : Session) (second_count : Nat) : Option Session × List (List Nat) :=
  if 25 ≤ second_count then (none, [])
  else if 0 < second_count ∧ second_count % 5 = 0 then (some s, retry_send s)
  else (some s, [])

/-! ## Path sandbox: `ClientConnection.get_local_filename` (lines 60-90) -/

def openBrace : Char := '\x7b'

def closeBrace : Char := '\x7d'

/-- The template marker replaced by the client filename. -/
def filenameMark : List Char := openBrace :: ("filename".toList ++ [closeBrace])

/-- The template marker replaced by the peer address. -/
def remoteIpMark : List Char := openBrace :: ("remote_ip".toList ++ [closeBrace])

/-- The template marker replaced by the peer port. -/
def remotePortMark : List Char := openBrace :: ("remote_port".toList ++ [closeBrace])

/-- The opening of a datetime template marker. -/
def dtMark : List Char := openBrace :: "datetime:".toList

/-- The server's default filename template. -/
def defaultTemplate : List Char := filenameMark

/-- Worker for `replaceAll`, structurally recursive on a fuel that is at
least the length of the scanned list (each step consumes at least one
character, so the fuel is never exhausted when started at the length). -/
def replaceAllF (marker repl : List Char) : Nat → List Char → List Char
  | _, [] => []
  | 0, cs => cs
  | f + 1, c :: cs =>
    if marker ≠ [] ∧ marker.isPrefixOf (c :: cs) then
      repl ++ replaceAllF marker repl f (cs.drop (marker.length - 1))
    else c :: replaceAllF marker repl f cs

/-- Python `str.replace(marker, repl)`: replace every (non-overlapping,
leftmost-first) occurrence.  The `marker ≠ []` guard matches the fact that
the source only ever replaces a nonempty regex match. -/
def replaceAll (marker repl cs : List Char) : List Char :=
  replaceAllF marker repl cs.length cs

/-- First match of the regex for a datetime marker: the format
string between the first occurrence of the marker opening and the next
closing brace (no match if no closing brace follows). -/
def findDatetimeFmt : List Char → Option (List Char)
  | [] => none
  | c :: cs =>
    if dtMark.isPrefixOf (c :: cs) then
      let rest := cs.drop (dtMark.length - 1)
      let fmt := rest.takeWhile (fun x => x ≠ closeBrace)
      if fmt.length < rest.length then some fmt else none
    else findDatetimeFmt cs

/-- The datetime expansion loop of `get_local_filename` (lines 70-81):
while a datetime marker matches and the budget (10) is not exhausted,
replace every occurrence of the matched marker by `strftime fmt` and
re-search. -/
def expandDatetime (strftime : List Char → List Char) : Nat → List Char → List Char
  | 0, t => t
  | i + 1, t =>
    match findDatetimeFmt t with
    | none => t
    | some fmt =>
        expandDatetime strftime i
          (replaceAll (dtMark ++ fmt ++ [closeBrace]) (strftime fmt) t)

/-- Worker for `pyFormat`, structurally recursive on a fuel that is at
least the length of the scanned list. -/
def pyFormatF (fv ip pv : List Char) : Nat → List Char → List Char
  | _, [] => []
  | 0, cs => cs
  | f + 1, c :: cs =>
    if filenameMark.isPrefixOf (c :: cs) then
      fv ++ pyFormatF fv ip pv f (cs.drop (filenameMark.length - 1))
    else if remoteIpMark.isPrefixOf (c :: cs) then
      ip ++ pyFormatF fv ip pv f (cs.drop (remoteIpMark.length - 1))
    else if remotePortMark.isPrefixOf (c :: cs) then
      pv ++ pyFormatF fv ip pv f (cs.drop (remotePortMark.length - 1))
    else c :: pyFormatF fv ip pv f cs

/-- `template.format(**values)` for the three keys the source supplies:
a single left-to-right pass substituting the markers (replacements are not
re-scanned, as in Python's `str.format`). -/
def pyFormat (fv ip pv cs : List Char) : List Char :=
  pyFormatF fv ip pv cs.length cs

/-- `os.path.join(root, tmp)` for POSIX paths. -/
def ospJoin (root tmp : List Char) : List Char :=
  if tmp.head? = some '/' then tmp
  else if root = [] then tmp
  else if root.getLast? = some '/' then root ++ tmp
  else root ++ '/' :: tmp

/-- Lexical path normalisation: drop empty and `.` components, let `..` pop
the previous component (staying at the root when there is none). -/
def normParts (acc : List (List Char)) : List (List Char) → List (List Char)
  | [] => acc.reverse
  | p :: ps =>
    if p = [] ∨ p = ['.'] then normParts acc ps
    else if p = ['.', '.'] then normParts (acc.drop 1) ps
    else normParts (p :: acc) ps

/-- `os.path.realpath` on an absolute path of a symlink-free filesystem:
canonicalise `.` and `..` lexically into an absolute path. -/
def realpathModel (path : List Char) : List Char :=
  '/' :: List.intercalate ['/'] (normParts [] (List.splitOn '/' path))

/-- `ClientConnection.get_local_filename` (lines 60-90): strip leading
slashes from the client filename, expand datetime markers (at most 10
rounds), substitute the filename/address/port markers, join onto the
(pre-canonicalised) `root_path`, canonicalise, and accept if and only if
the result string-starts-with `root_path` — the bare
`filename.startswith(self.server.root_path)` of line 88.  `none` models
the `Exception("File not in the root path")` raise. -/
def get_local_filename (strftime : List Char → List Char)
    (root_path remote_ip remote_port filename template : List Char) :
    Option (List Char) :=
  let fn0 := filename.dropWhile (fun c => c = '/')
  let t := expandDatetime strftime 10 template
  let tmp := pyFormat fn0 remote_ip remote_port t
  let rp := realpathModel (ospJoin root_path tmp)
  if root_path.isPrefixOf rp then some rp else none

/-- Modelled from the spec: the separator-aligned prefix check the spec
requires — the resolved path equals the root, or extends it at a path
separator ("the prefix check MUST use separator-aware comparison to avoid
/foo matching /foobar"). -/
def sepAligned (root p : List Char) : Bool :=
  root == p || (root ++ ['/']).isPrefixOf p

/-! ## Shared lemmas -/

theorem unpackU16_packU16 (n : Nat) (h : n < 65536) :
    unpackU16 (packU16 n) = some n := by
  simp only [unpackU16, packU16]
  congr 1
  omega

theorem wrapInc_lt (b : Nat) (h : b < 65536) : wrapInc b < 65536 := by
  unfold wrapInc
  split <;> omega

/-- Concrete environment used by witnesses; the established-session
handlers never consult it. -/
def env0 : Env :=
  { resolveOk := true, isfile := true, openOk := true, contents := [] }

/-- The session state right after a successful WRQ: ACK(0) cached, block 1
expected, empty write file open. -/
def sWrq : Session :=
  { current_block_number := 1
    current_data := some (packU16 4 ++ packU16 0)
    current_data_length := 0
    data_finished := false
    fp := some (FileHandle.writing [] true) }

/-- A read session that has sent its final short DATA block and awaits the
final ACK (`data_finished = true`). -/
def sFin : Session :=
  { current_block_number := 2
    current_data := some (packU16 3 ++ packU16 2 ++ [97])
    current_data_length := 513
    data_finished := true
    fp := some (FileHandle.reading [] true) }

/-- A read session whose block counter has reached 65535. -/
def sRead65535 : Session :=
  { current_block_number := 65535
    current_data := none
    current_data_length := 0
    data_finished := false
    fp := some (FileHandle.reading [] true) }

/-! ## C6 — 16-bit block counter wrap -/

/-- C6: every step that increments the block counter wraps 65535 to 0 and
never reaches 65536, on both the ACK-driven read path and the DATA-driven
write path of `process`. -/
theorem c6_block_wrap :
    wrapInc 65535 = 0 ∧
    (∀ b, b < 65536 → wrapInc b < 65536) ∧
    (∀ (env : Env) (s : Session), s.data_finished = false →
      s.current_block_number < 65536 →
      ((process env s (packU16 4 ++ packU16 s.current_block_number)).session.map
        Session.current_block_number) = some (wrapInc s.current_block_number)) ∧
    (∀ (env : Env) (s : Session) (w payload : List Nat),
      s.current_block_number < 65536 →
      payload.length = 512 →
      s.fp = some (FileHandle.writing w true) →
      ((process env s (packU16 3 ++ packU16 s.current_block_number ++ payload)).session.map
        Session.current_block_number) = some (wrapInc s.current_block_number)) := by
  refine ⟨rfl, ?_, ?_, ?_⟩
  · intro b h
    exact wrapInc_lt b h
  · intro env s hfin hlt
    have hrt : s.current_block_number / 256 % 256 * 256 + s.current_block_number % 256
        = s.current_block_number := by omega
    simp [process, handleACK, unpackU16, packU16, hfin, hrt]
  · intro env s w payload hlt hlen hfp
    have hrt : s.current_block_number / 256 % 256 * 256 + s.current_block_number % 256
        = s.current_block_number := by omega
    simp [process, handleDATA, unpackU16, packU16, hrt, fpWrite, hfp, hlen]

/-- Witness for C6 at the wrap point: a read session at block 65535
acknowledged with block 65535 continues at block 0. -/
theorem c6_block_wrap_witness :
    wrapInc 65535 = 0 ∧
    ((process env0 sRead65535 (packU16 4 ++ packU16 65535)).session.map
      Session.current_block_number) = some 0 :=
  ⟨c6_block_wrap.1,
   c6_block_wrap.2.2.1 env0 sRead65535 rfl (by decide)⟩

/-! ## C7 — any ACK ends a finished read session -/

/-- C7: once `data_finished` is set, any datagram whose first two bytes
carry opcode 4 tears the session down with no reply — the block number
bytes (and anything after them) are never examined. -/
theorem c7_final_ack (env : Env) (s : Session) (data : List Nat)
    (hop : unpackU16 (data.take 2) = some 4)
    (hfin : s.data_finished = true) :
    process env s data =
      { session := none, sent := [], raised := false, closedFile := writtenOf s.fp } := by
  simp [process, hop, handleACK, hfin]

/-- Witness for C7: the awaiting-final-ACK session is closed by an ACK
carrying an arbitrary (wrong) block number. -/
theorem c7_final_ack_witness :
    process env0 sFin [0, 4, 99, 99] =
      { session := none, sent := [], raised := false, closedFile := none } :=
  c7_final_ack env0 sFin [0, 4, 99, 99] rfl rfl

/-! ## C8 — wrong block number is ignored without any state change -/

/-- C8: an ACK (read, not finished) or DATA (write) whose block number
differs from the expected one produces no outbound datagram, does not
raise, and returns the session state completely unchanged (same block
counter, cached datagram, file handle and end-of-transfer flag). -/
theorem c8_wrong_block (env : Env) (s : Session) (n : Nat) (payload : List Nat)
    (hn : n < 65536) (hne : n ≠ s.current_block_number) :
    (s.data_finished = false →
      process env s (packU16 4 ++ packU16 n) =
        { session := some s, sent := [], raised := false, closedFile := none }) ∧
    process env s (packU16 3 ++ packU16 n ++ payload) =
      { session := some s, sent := [], raised := false, closedFile := none } := by
  have hrt : n / 256 % 256 * 256 + n % 256 = n := by omega
  constructor
  · intro hfin
    simp [process, handleACK, unpackU16, packU16, hfin, hrt, hne]
  · simp [process, handleDATA, unpackU16, packU16, hrt, hne]

/-- Witness for C8: a write session expecting block 1 ignores ACK(7) and
DATA(7) without touching its state. -/
theorem c8_wrong_block_witness :
    process env0 sRead65535 (packU16 4 ++ packU16 7) =
      { session := some sRead65535, sent := [], raised := false, closedFile := none } ∧
    process env0 sWrq (packU16 3 ++ packU16 7 ++ [1, 2, 3]) =
      { session := some sWrq, sent := [], raised := false, closedFile := none } :=
  ⟨(c8_wrong_block env0 sRead65535 7 [] (by decide) (by decide)).1 rfl,
   (c8_wrong_block env0 sWrq 7 [1, 2, 3] (by decide) (by decide)).2⟩

/-! ## C1 — the path prefix check is not separator-aligned -/

/-- C1: the claim fails on the code.  With root `/foo` and client filename
`../foobar/x` (default template, no symlinks), `get_local_filename`
returns `/foobar/x` — the bare `startswith` of line 88 accepts it — yet
`/foobar/x` does not have `/foo` as a separator-aligned prefix.  The code
therefore escapes the root exactly in the way the claim says is
prevented. -/
theorem c1_sep_check_missing :
    get_local_filename id ("/foo".toList) [] [] ("../foobar/x".toList) defaultTemplate
      = some ("/foobar/x".toList) ∧
    sepAligned ("/foo".toList) ("/foobar/x".toList) = false := by
  constructor <;> decide

/-! ## C2 — RRQ open failure -/

/-- Oracle for an RRQ whose target exists but cannot be opened. -/
def envOpenFail : Env :=
  { resolveOk := true, isfile := true, openOk := false, contents := [] }

/-- C2: at the failing input the step does emit exactly one
ERROR(FileOpen) packet and clear the session, but then — the open-failure
branch lacks a `return` — it executes `self.fp.read(512)` with
`self.fp = None` and an AttributeError escapes `process`
(`raised = true`), contradicting the claim that the step performs no
further file operation. -/
theorem c2_rrq_open_failure :
    process envOpenFail initSession
        ([0, 1] ++ asciiBytes "a" ++ [0] ++ asciiBytes "octet" ++ [0]) =
      { session := none
        sent := [errorPacket 2 "Can not open file"]
        raised := true
        closedFile := none } := by
  decide

/-! ## C4 — initial datagram with a non-RRQ/WRQ opcode -/

/-- C4 counterexample: a DATA datagram with block number 2 from a fresh
peer key is silently ignored — the server sends nothing (no
ERROR(IllegalOp)) and the freshly created session stays in
`remote_sockets`. -/
theorem c4_counterexample :
    (serverHandleNew env0 [0, 3, 0, 2]).session = some initSession ∧
    (serverHandleNew env0 [0, 3, 0, 2]).sent = [] := by
  constructor <;> decide

/-- C4 amended: only a first datagram whose opcode lies outside {1..5} is
answered with ERROR(IllegalOp) and leaves no session state behind;
opcodes 3, 4 and 5 on a fresh key are instead fed to the regular
established-session logic (which, e.g., silently keeps the session on a
wrong-block DATA). -/
theorem c4_amended (env : Env) (data : List Nat) (op : Nat)
    (hop : unpackU16 (data.take 2) = some op)
    (h1 : op ≠ 1) (h2 : op ≠ 2) (h3 : op ≠ 3) (h4 : op ≠ 4) (h5 : op ≠ 5) :
    serverHandleNew env data =
      { session := none
        sent := [errorPacket 4 "Illegal TFTP operation"]
        raised := false
        closedFile := none } := by
  unfold serverHandleNew process
  rw [hop]
  simp [h1, h2, h3, h4, h5, send_error, error_messages, ERROR_FILE_NOT_FOUND,
    ERROR_FILE_OPEN, ERROR_FILE_WRITE, ERROR_FILE_EXISTS, ERROR_UNKNOWN_ID,
    ERROR_UNKNOWN, initSession, writtenOf]

/-- Witness for the amended C4: opcode 6 from a fresh key yields exactly
one ERROR(IllegalOp) and no session state. -/
theorem c4_amended_witness :
    serverHandleNew env0 [0, 6] =
      { session := none
        sent := [errorPacket 4 "Illegal TFTP operation"]
        raised := false
        closedFile := none } :=
  c4_amended env0 [0, 6] 6 rfl (by decide) (by decide) (by decide) (by decide)
    (by decide)

/-! ## C5 — unparseable or unknown-opcode datagram on an established session -/

/-- C5 counterexample: a one-byte datagram delivered to an established
session makes `struct.unpack("!H", data[0:2])` raise; the exception
escapes `process` and the session stays in the map — no ERROR(IllegalOp)
is sent and the session is not closed. -/
theorem c5_counterexample :
    process env0 sWrq [0] =
      { session := some sWrq, sent := [], raised := true, closedFile := none } := by
  decide

/-- C5 amended: a datagram whose opcode parses but lies outside {1..5}
does get ERROR(IllegalOp) and session teardown; a datagram too short to
carry the opcode instead raises an unhandled exception and leaves the
session state unchanged in the map. -/
theorem c5_amended (env : Env) (s : Session) (data : List Nat) :
    (∀ op, unpackU16 (data.take 2) = some op →
      op ≠ 1 → op ≠ 2 → op ≠ 3 → op ≠ 4 → op ≠ 5 →
      process env s data =
        { session := none
          sent := [errorPacket 4 "Illegal TFTP operation"]
          raised := false
          closedFile := writtenOf s.fp }) ∧
    (data.length < 2 →
      process env s data =
        { session := some s, sent := [], raised := true, closedFile := none }) := by
  constructor
  · intro op hop h1 h2 h3 h4 h5
    unfold process
    rw [hop]
    simp [h1, h2, h3, h4, h5, send_error, error_messages, ERROR_FILE_NOT_FOUND,
      ERROR_FILE_OPEN, ERROR_FILE_WRITE, ERROR_FILE_EXISTS, ERROR_UNKNOWN_ID,
      ERROR_UNKNOWN]
  · intro hlen
    match data, hlen with
    | [], _ => rfl
    | [a], _ => rfl

/-- Witness for the amended C5: opcode 6 on an established session is
answered with ERROR(IllegalOp) and torn down, while a one-byte datagram
raises and leaves the session in place. -/
theorem c5_amended_witness :
    process env0 sFin [0, 6] =
      { session := none
        sent := [errorPacket 4 "Illegal TFTP operation"]
        raised := false
        closedFile := none } ∧
    process env0 sFin [7] =
      { session := some sFin, sent := [], raised := true, closedFile := none } :=
  ⟨(c5_amended env0 sFin [0, 6]).1 6 rfl (by decide) (by decide) (by decide)
      (by decide) (by decide),
   (c5_amended env0 sFin [7]).2 (by decide)⟩

/-! ## C9 / C10 — retransmission cache -/

/-- The cached retransmission buffer holds nothing or a DATA/ACK packet
(wire opcode 3 or 4), never an ERROR packet. -/
def cacheDataOrAck (s : Session) : Prop :=
  ∀ p, s.current_data = some p → p.take 2 = packU16 3 ∨ p.take 2 = packU16 4

/-- Whenever a `process` step sends a datagram and keeps the session alive,
that datagram is the one cached in `current_data` — `send` (line 312)
stores before sending, and `send_error` (which bypasses the cache) always
clears. -/
theorem process_sent_cached (env : Env) (s : Session) (data : List Nat)
    (s2 : Session) (p : List Nat)
    (hses : (process env s data).session = some s2)
    (hsent : (process env s data).sent = [p]) :
    s2.current_data = some p := by
  simp only [process, handleRRQ, handleWRQ, handleDATA, handleACK, handleERROR,
    send_error] at hses hsent
  repeat' split at hses
  all_goals simp_all [apply_ite StepResult.sent]
  all_goals (subst hses; simp_all)

/-- C10: the retransmission cache invariant — initially empty and, across
every `process` step that leaves the session alive, holding only a DATA
or ACK packet; `send_error` never stores into the cache and always tears
the session down, so the watchdog can never retransmit an ERROR packet. -/
theorem c10_cache_data_or_ack :
    cacheDataOrAck initSession ∧
    (∀ (env : Env) (s : Session) (data : List Nat) (s2 : Session),
      cacheDataOrAck s →
      (process env s data).session = some s2 →
      cacheDataOrAck s2) := by
  constructor
  · intro p hp
    simp [initSession] at hp
  · intro env s data s2 hs h
    simp only [process, handleRRQ, handleWRQ, handleDATA, handleACK, handleERROR,
      send_error] at h
    repeat' split at h
    all_goals simp_all
    all_goals (subst h; intro p hp; simp at hp; subst hp)
    all_goals (first | (left; rfl) | (right; rfl))

/-- Oracle for a WRQ whose target does not exist and opens fine. -/
def envW : Env :=
  { resolveOk := true, isfile := false, openOk := true, contents := [] }

/-- Witness for C10: the post-WRQ session caches the ACK packet. -/
theorem c10_cache_data_or_ack_witness : cacheDataOrAck sWrq :=
  c10_cache_data_or_ack.2 envW initSession [0, 2] sWrq
    c10_cache_data_or_ack.1 (by decide)

/-- C9: with no idle reset, a watchdog iteration retransmits the cached
last-sent datagram verbatim exactly when the idle-second counter is in
{5, 10, 15, 20} (the counter runs 0, 1, 2, ... when never reset), and at
25 or more idle seconds it tears the session down sending nothing; every
retransmission is byte-identical to the datagram stored by the original
`send`, which `process` always leaves in `current_data`. -/
theorem c9_watchdog_schedule (s : Session) (d : List Nat)
    (hcd : s.current_data = some d) :
    (∀ c, 25 ≤ c → watchdogTick s c = (none, [])) ∧
    (∀ c, c ≤ 25 →
      ((watchdogTick s c).2 = [d] ↔ (c = 5 ∨ c = 10 ∨ c = 15 ∨ c = 20))) ∧
    (∀ (env : Env) (s0 : Session) (dg : List Nat) (s1 : Session) (p : List Nat),
      (process env s0 dg).session = some s1 → (process env s0 dg).sent = [p] →
      s1.current_data = some p) := by
  refine ⟨?_, ?_, ?_⟩
  · intro c hc
    simp [watchdogTick, hc]
  · intro c hc
    interval_cases c <;> simp [watchdogTick, retry_send, hcd]
  · intro env s0 dg s1 p h1 h2
    exact process_sent_cached env s0 dg s1 p h1 h2

/-- Witness for C9: for the post-WRQ session the watchdog resends the
cached ACK(0) at 5 idle seconds and closes silently at 25. -/
theorem c9_watchdog_schedule_witness :
    watchdogTick sWrq 25 = (none, []) ∧
    (watchdogTick sWrq 5).2 = [packU16 4 ++ packU16 0] :=
  ⟨(c9_watchdog_schedule sWrq (packU16 4 ++ packU16 0) rfl).1 25 (by decide),
   ((c9_watchdog_schedule sWrq (packU16 4 ++ packU16 0) rfl).2.1 5
      (by decide)).mpr (by decide)⟩

/-! ## C3 — a successful Write session stores the concatenated payloads -/

/-- Running a write session from an arbitrary block counter `b` over full
blocks `ps` followed by a final short block `pl`: every write appends in
order, so the file closed at the end holds the previous contents `w`
followed by all payloads, and the session is torn down. -/
theorem runSteps_write (env : Env) (ps : List (List Nat)) (pl : List Nat)
    (b : Nat) (w : List Nat) (cd : Option (List Nat)) (cl : Nat)
    (hb : b < 65536)
    (hfull : ∀ p ∈ ps, p.length = 512)
    (hlast : pl.length < 512) :
    (runSteps env
      { current_block_number := b, current_data := cd, current_data_length := cl,
        data_finished := false, fp := some (FileHandle.writing w true) }
      (mkDataSeq b (ps ++ [pl]))).closedFile = some (w ++ (ps ++ [pl]).flatten) ∧
    (runSteps env
      { current_block_number := b, current_data := cd, current_data_length := cl,
        data_finished := false, fp := some (FileHandle.writing w true) }
      (mkDataSeq b (ps ++ [pl]))).session = none := by
  induction ps generalizing b w cd cl with
  | nil =>
    have hrt : b / 256 % 256 * 256 + b % 256 = b := by omega
    simp [mkDataSeq, runSteps, process, handleDATA, mkData, unpackU16, packU16,
      hrt, fpWrite, hlast, writtenOf]
  | cons p ps ih =>
    have hp : p.length = 512 := hfull p (List.mem_cons_self p ps)
    have hrt : b / 256 % 256 * 256 + b % 256 = b := by omega
    have ihx := ih (wrapInc b) (w ++ p)
      (some (packU16 4 ++ packU16 b)) (cl + 512)
      (wrapInc_lt b hb) (fun q hq => hfull q (List.mem_cons_of_mem p hq))
    simp [mkDataSeq, runSteps, process, handleDATA, mkData, unpackU16, packU16,
      hrt, fpWrite, hp] at ihx ⊢
    simp [ihx.1, ihx.2]

/-- C3: a Write session that receives in-order DATA blocks 1..N (full
512-byte payloads followed by a final short one, every write succeeding)
closes its file holding exactly the concatenation of the payloads in
order, and terminates. -/
theorem c3_write_file_contents (env : Env) (ps : List (List Nat)) (pl : List Nat)
    (hfull : ∀ p ∈ ps, p.length = 512) (hlast : pl.length < 512) :
    (runSteps env sWrq (mkDataSeq 1 (ps ++ [pl]))).closedFile =
      some ((ps ++ [pl]).flatten) ∧
    (runSteps env sWrq (mkDataSeq 1 (ps ++ [pl]))).session = none := by
  have h := runSteps_write env ps pl 1 [] (some (packU16 4 ++ packU16 0)) 0
    (by omega) hfull hlast
  simpa [sWrq] using h

/-- Witness for C3: a single short DATA block 1 with payload `[1, 2, 3]`
finishes the session with the file holding `[1, 2, 3]`. -/
theorem c3_write_file_contents_witness :
    (runSteps env0 sWrq (mkDataSeq 1 [[1, 2, 3]])).closedFile = some [1, 2, 3] ∧
    (runSteps env0 sWrq (mkDataSeq 1 [[1, 2, 3]])).session = none :=
  c3_write_file_contents env0 [] [1, 2, 3] (by simp) (by decide)

end Stftpd
